import Mathlib

/-!
Shallow embedding in Lean 4 of the Go repository josephcopenhaver/cloudflare-dns-sync.

The embedding covers the two source files that carry all the behavior:
the configuration loader (config.go, given here as src/unnamed/part_000) and the
sync loop (internal/app/run.go). Pure Go functions become Lean functions; the
stateful parts (the receiver of (*config).load, the lastKnownIP closure variable,
the ticking loop) become explicit state passing; fallible Go code returns
Option/Except values. HTTP transport outcomes are supplied as explicit oracle
values, since the network is outside the program.
-/

/-! ## String and number helpers mirroring the Go standard library pieces used -/

/-- Value of a list of decimal digit characters, as accumulated by the digit loops
of strconv. -/
def digitsVal (l : List Char) : Nat :=
  l.foldl (fun acc c => acc * 10 + (c.toNat - 48)) 0

/-- Decimal digit test on a character. -/
def isDigitChar (c : Char) : Bool :=
  48 ≤ c.toNat && c.toNat ≤ 57

/-- Model of Go strconv.Atoi (ParseInt base 10, 64-bit int): optional sign, at
least one digit, all digits, 64-bit range; every other input is an error. -/
def atoi (s : String) : Except Unit Int :=
  match s.data with
  | [] => .error ()
  | c :: cs =>
    let signDigits : Bool × List Char :=
      if c = '+' then (false, cs)
      else if c = '-' then (true, cs)
      else (false, c :: cs)
    match signDigits with
    | (neg, ds) =>
      if ds.isEmpty then .error ()
      else if ds.all isDigitChar then
        let n := digitsVal ds
        if neg then
          if n ≤ 2 ^ 63 then .ok (-(n : Int)) else .error ()
        else
          if n < 2 ^ 63 then .ok (n : Int) else .error ()
      else .error ()

/-- Model of Go strconv.Itoa on a (signed) integer. -/
def itoa (i : Int) : String :=
  if i < 0 then "-" ++ ⟨Nat.toDigits 10 i.natAbs⟩ else ⟨Nat.toDigits 10 i.natAbs⟩

/-- Model of Go unicode.IsSpace (the White_Space code points). -/
def goIsSpace (c : Char) : Bool :=
  c.toNat = 9 || c.toNat = 10 || c.toNat = 11 || c.toNat = 12 || c.toNat = 13 ||
  c.toNat = 32 || c.toNat = 133 || c.toNat = 160 || c.toNat = 5760 ||
  (8192 ≤ c.toNat && c.toNat ≤ 8202) || c.toNat = 8232 || c.toNat = 8233 ||
  c.toNat = 8239 || c.toNat = 8287 || c.toNat = 12288

/-- Model of Go strings.TrimSpace: drop White_Space characters from both ends. -/
def goTrimSpace (s : String) : String :=
  ⟨((s.data.dropWhile goIsSpace).reverse.dropWhile goIsSpace).reverse⟩

/-- Model of Go strings.TrimSuffix: drop the suffix when present, otherwise
return the string unchanged. -/
def goTrimSuffix (s suf : String) : String :=
  if s.data.reverse.take suf.data.length = suf.data.reverse then
    ⟨s.data.take (s.data.length - suf.data.length)⟩
  else s

/-- Lowercase hexadecimal digit character, as used by encoding/json. -/
def hexLowerChar (n : Nat) : Char :=
  if n < 10 then Char.ofNat (48 + n) else Char.ofNat (87 + n)

/-- Escaping of one character by the Go encoding/json string encoder with the
default HTML escaping (the configuration used by json.NewEncoder): quote,
backslash, newline, carriage return and tab get two-character escapes, other
control characters become \u00XX, the HTML-sensitive characters and the line and
paragraph separators get \u escapes, everything else passes through. -/
def jsonEscapeChar (c : Char) : List Char :=
  if c = '"' then ['\\', '"']
  else if c = '\\' then ['\\', '\\']
  else if c = '\n' then ['\\', 'n']
  else if c = '\r' then ['\\', 'r']
  else if c = '\t' then ['\\', 't']
  else if c.toNat < 32 then ['\\', 'u', '0', '0', hexLowerChar (c.toNat / 16), hexLowerChar (c.toNat % 16)]
  else if c = '<' then ['\\', 'u', '0', '0', '3', 'c']
  else if c = '>' then ['\\', 'u', '0', '0', '3', 'e']
  else if c = '&' then ['\\', 'u', '0', '0', '2', '6']
  else if c.toNat = 8232 then ['\\', 'u', '2', '0', '2', '8']
  else if c.toNat = 8233 then ['\\', 'u', '2', '0', '2', '9']
  else [c]

/-- Model of the Go encoding/json marshaling of a string value (what
json.NewEncoder(buf).Encode(s) writes, without the trailing newline the encoder
adds). Marshaling a Go string value has no error path, so this is total. -/
def goJSONEncodeString (s : String) : String :=
  ⟨'"' :: s.data.foldr (fun c acc => jsonEscapeChar c ++ acc) ['"']⟩

/-- Boolean test that the first character list is a leading segment of the
second. -/
def listPre : List Char → List Char → Bool
  | [], _ => true
  | _ :: _, [] => false
  | a :: as, b :: bs => a = b && listPre as bs

/-- Boolean test that the string p begins the string s. -/
def strHasPre (p s : String) : Bool :=
  listPre p.data s.data

/-! ## Configuration model, from (*config).load / (*config).validate
(src/unnamed/part_000) -/

/-- Model of the Go config struct. The first five fields are the JSON-tagged
exported fields, ttl and noCfgFile are the unexported fields. The Go zero value
is Config.zero. TTLPtr models the *int JSON field as an optional integer; the
only pointer comparison the Go code performs on it is against nil, which Option
models exactly. -/
structure Config where
  ZoneID : String
  RecordID : String
  RecordName : String
  ApiToken : String
  TTLPtr : Option Int
  ttl : Int
  noCfgFile : Bool
deriving DecidableEq

/-- Zero value of the Go config struct. -/
def Config.zero : Config :=
  ⟨"", "", "", "", none, 0, false⟩

/-- Model of (*config).isEmpty: comparison of the whole struct value with the
zero value (part_000 lines 24-26). -/
def Config.isEmpty (c : Config) : Bool :=
  decide (c = Config.zero)

/-- Fields a JSON config file can populate (the exported, JSON-tagged fields of
the struct). Decoding leaves the unexported ttl and noCfgFile fields at their
zero values. -/
structure FileCfg where
  ZoneID : String
  RecordID : String
  RecordName : String
  ApiToken : String
  TTLPtr : Option Int
deriving DecidableEq

/-- Config value produced by JSON-decoding a file into a fresh zero config. -/
def FileCfg.toConfig (f : FileCfg) : Config :=
  ⟨f.ZoneID, f.RecordID, f.RecordName, f.ApiToken, f.TTLPtr, 0, false⟩

/-- Environment variables consulted by (*config).load. A field is none when the
variable is unset; the empty-string-set case is a some "" value. The fields
model CLOUDFLARE_ZONE_ID, CLOUDFLARE_RECORD_ID, CLOUDFLARE_RECORD_NAME,
CLOUDFLARE_RECORD_TTL and CLOUDFLARE_API_TOKEN in order. -/
structure Env where
  zoneID : Option String
  recordID : Option String
  recordName : Option String
  ttl : Option String
  apiToken : Option String
deriving DecidableEq

/-- Outcome of the file-open-and-decode block of (*config).load (part_000 lines
33-49): the file may be missing (os.IsNotExist), opening may fail otherwise,
decoding may fail, or decoding yields field values. -/
inductive FileResult where
  | missing
  | openError
  | decodeError
  | parsed (f : FileCfg)
deriving DecidableEq

/-- Error outcomes of (*config).load: the wrapped file error ("failed to load
config file"), the TTL parse error ("failed to parse CLOUDFLARE_RECORD_TTL
environment variable"), and the "no configuration" error. -/
inductive LoadError where
  | fileLoadError
  | ttlParseError
  | noConfiguration
deriving DecidableEq

/-- Model of the os.LookupEnv pattern (v, ok := LookupEnv(k); ok && v != "")
used throughout load: yields the value only when the variable is set and
non-empty. -/
def lookupNonEmpty (v : Option String) : Option String :=
  match v with
  | some s => if s = "" then none else some s
  | none => none

/-- Model of the per-field merge blocks of load (for example part_000 lines
63-67): the environment value is consulted only when the current (file) value is
empty, and only a set, non-empty environment value replaces it. -/
def mergeField (cur : String) (envV : Option String) : String :=
  if cur = "" then
    match lookupNonEmpty envV with
    | some v => v
    | none => cur
  else cur

/-- Model of the strict TTL parse of load (part_000 lines 82-90): strconv.Atoi
followed by the round-trip check strconv.Itoa(v) == s; an Atoi error or a failed
round trip is an error. -/
def ttlFromEnv (s : String) : Except Unit Int :=
  match atoi s with
  | .error _ => .error ()
  | .ok v => if itoa v = s then .ok v else .error ()

/-- Tail of (*config).load from line 105: the merged result is checked for
emptiness (with the "no configuration" error when the file was missing or
empty), then the noCfgFile flag is recorded and the result is assigned to the
receiver. On error the receiver keeps its prior value c. -/
def Config.loadFinish (c : Config) (noCfgFile emptyCfgFile : Bool) (result : Config) :
    Option LoadError × Config :=
  if result.isEmpty && noCfgFile then (some .noConfiguration, c)
  else if result.isEmpty && emptyCfgFile then (some .noConfiguration, c)
  else (none, { result with noCfgFile := noCfgFile })

/-- Middle of (*config).load (lines 59-103): records whether the decoded file
was empty, merges the environment fallbacks for the three identifier fields,
resolves the TTL (environment value first, with the strict parse; otherwise the
file pointer value or the default 120), merges the API token fallback, and hands
off to loadFinish. On the TTL parse error the receiver keeps its prior value. -/
def Config.loadMerge (c : Config) (env : Env) (noCfgFile : Bool) (result0 : Config) :
    Option LoadError × Config :=
  let emptyCfgFile := if noCfgFile then false else result0.isEmpty
  let r1 := { result0 with ZoneID := mergeField result0.ZoneID env.zoneID }
  let r2 := { r1 with RecordID := mergeField r1.RecordID env.recordID }
  let r3 := { r2 with RecordName := mergeField r2.RecordName env.recordName }
  match lookupNonEmpty env.ttl with
  | some s =>
    match ttlFromEnv s with
    | .error _ => (some .ttlParseError, c)
    | .ok v =>
      Config.loadFinish c noCfgFile emptyCfgFile
        { r3 with ttl := v, ApiToken := mergeField r3.ApiToken env.apiToken }
  | none =>
    let t : Int := match result0.TTLPtr with | none => 120 | some v => v
    Config.loadFinish c noCfgFile emptyCfgFile
      { r3 with ttl := t, ApiToken := mergeField r3.ApiToken env.apiToken }

/-- Model of (*config).load (part_000 lines 28-127). The first component is the
returned error (none on success), the second is the receiver value after the
call. A failed open or decode returns the wrapped file error; a missing file
proceeds with the zero value and noCfgFile set. -/
def Config.load (c : Config) (env : Env) (file : FileResult) : Option LoadError × Config :=
  match file with
  | .openError => (some .fileLoadError, c)
  | .decodeError => (some .fileLoadError, c)
  | .missing => Config.loadMerge c env true Config.zero
  | .parsed f => Config.loadMerge c env false f.toConfig

/-- Error outcomes of (*config).validate, in source order (part_000 lines
150-168). -/
inductive ValidateError where
  | apiTokenRequired
  | zoneIDRequired
  | recordIDRequired
  | recordNameRequired
  | ttlTooSmall
deriving DecidableEq

/-- Model of (*config).validate: the first empty required field wins, then the
TTL lower bound (ttl < 1 fails). -/
def Config.validate (c : Config) : Option ValidateError :=
  if c.ApiToken = "" then some .apiTokenRequired
  else if c.ZoneID = "" then some .zoneIDRequired
  else if c.RecordID = "" then some .recordIDRequired
  else if c.RecordName = "" then some .recordNameRequired
  else if c.ttl < 1 then some .ttlTooSmall
  else none

/-- Model of the exported (*config).Load (part_000 lines 173-183): load then
validate, with either error propagated. -/
def Config.Load (c : Config) (env : Env) (file : FileResult) :
    Option (LoadError ⊕ ValidateError) × Config :=
  match Config.load c env file with
  | (some e, c2) => (some (Sum.inl e), c2)
  | (none, c2) =>
    match c2.validate with
    | some e => (some (Sum.inr e), c2)
    | none => (none, c2)

/-- Modelled from the spec words, for comparison in the amended C3 claim: the
merged value of a string field is the config-file value when it is non-empty,
otherwise the set, non-empty environment value, otherwise empty. -/
def specMergedField (fileVal : String) (envVal : Option String) : String :=
  if fileVal = "" then
    match lookupNonEmpty envVal with
    | some v => v
    | none => ""
  else fileVal

/-! ## Sync function construction, from newSyncFunc (run.go lines 138-163) -/

/-- UTF-8 encoding of a single code point as byte values. -/
def utf8EncodeCharNat (c : Nat) : List Nat :=
  if c < 128 then [c]
  else if c < 2048 then [192 + c / 64, 128 + c % 64]
  else if c < 65536 then [224 + c / 4096, 128 + (c / 64) % 64, 128 + c % 64]
  else [240 + c / 262144, 128 + (c / 4096) % 64, 128 + (c / 64) % 64, 128 + c % 64]

/-- UTF-8 bytes of a string, as Go views string contents. -/
def strBytes (s : String) : List Nat :=
  (s.data.map (fun c => utf8EncodeCharNat c.toNat)).flatten

/-- Bytes left unescaped by Go url.PathEscape (net/url shouldEscape with the
path-segment encoding): ASCII alphanumerics, the unreserved marks - _ . ~ and
the sub-delims $ & + : = @ allowed inside a path segment. -/
def pathSegSafe (b : Nat) : Bool :=
  (48 ≤ b && b ≤ 57) || (65 ≤ b && b ≤ 90) || (97 ≤ b && b ≤ 122) ||
  b = 45 || b = 95 || b = 46 || b = 126 ||
  b = 36 || b = 38 || b = 43 || b = 58 || b = 61 || b = 64

/-- Uppercase hexadecimal digit byte, as used by net/url percent-encoding. -/
def hexUpperDigit (n : Nat) : Nat :=
  if n < 10 then 48 + n else 55 + n

/-- Model of Go url.PathEscape over the UTF-8 bytes of the input: safe bytes
pass through, every other byte becomes a percent triple with uppercase hex. -/
def pathEscapeB : List Nat → List Nat
  | [] => []
  | b :: rest =>
    (if pathSegSafe b then [b] else [37, hexUpperDigit (b / 16), hexUpperDigit (b % 16)]) ++
      pathEscapeB rest

/-- ASCII control byte test, as in net/url (c < 0x20 or c == 0x7f). -/
def isCtlByte (b : Nat) : Bool :=
  b < 32 || b == 127

/-- Test for a control byte anywhere in a byte list. -/
def hasCtlByte (l : List Nat) : Bool :=
  l.any isCtlByte

/-- HTTP token characters accepted by the net/http method check
(golang.org/x/net/http/httpguts.IsTokenRune): ASCII alphanumerics and the
characters ! # $ % & the apostrophe * + - . ^ _ the backtick | ~ . -/
def isTokenChar (c : Char) : Bool :=
  (48 ≤ c.toNat && c.toNat ≤ 57) || (65 ≤ c.toNat && c.toNat ≤ 90) ||
  (97 ≤ c.toNat && c.toNat ≤ 122) ||
  c.toNat = 33 || c.toNat = 35 || c.toNat = 36 || c.toNat = 37 || c.toNat = 38 ||
  c.toNat = 39 || c.toNat = 42 || c.toNat = 43 || c.toNat = 45 || c.toNat = 46 ||
  c.toNat = 94 || c.toNat = 95 || c.toNat = 96 || c.toNat = 124 || c.toNat = 126

/-- Model of the net/http method validity check: non-empty and all token
characters. -/
def validMethodB (m : String) : Bool :=
  !(m.data.isEmpty) && m.data.all isTokenChar

/-- Model of the error condition of net/http.NewRequest for the request shapes
built by newSyncFunc (absolute https URLs with literal scheme and host whose
only variable parts are path-escaped path segments): NewRequest fails exactly
when the method is not a valid token or url.Parse rejects the URL, and for this
URL shape url.Parse rejects exactly the strings containing an ASCII control
byte. -/
def goNewRequestOk (method : String) (urlBytes : List Nat) : Bool :=
  validMethodB method && !(hasCtlByte urlBytes)

/-- Request body piece computed once by newSyncFunc (run.go lines 141-149): the
literal JSON object opening concatenated with the encoder output for the record
name (with its trailing newline trimmed) and the content key. -/
def mkReqBodyStrPre (cfg : Config) : String :=
  "\x7b\"type\":\"A\",\"name\":" ++
    goTrimSuffix (goJSONEncodeString cfg.RecordName ++ "\n") "\n" ++ ",\"content\":"

/-- Request body piece computed once by newSyncFunc (run.go line 151): the TTL
and proxied flag and the object close. -/
def mkReqBodyStrSuf (cfg : Config) : String :=
  ",\"ttl\":" ++ itoa cfg.ttl ++ ",\"proxied\":false\x7d"

/-- Values newSyncFunc computes once and closes over: the API token, the two
body pieces, and the two base request URLs (as UTF-8 bytes). -/
structure Setup where
  apiToken : String
  bodyPre : String
  bodySuf : String
  readIPURL : List Nat
  setRecordURL : List Nat

/-- The two panic sites of newSyncFunc that depend on request construction
(run.go lines 153-161). The json encode panic site at lines 144-146 has no
reachable failing branch because marshaling a Go string value cannot error, so
it does not appear as an outcome. -/
inductive SetupPanic where
  | readIPReqFailed
  | setRecordReqFailed
deriving DecidableEq

/-- The Setup value newSyncFunc computes from a config. -/
def mkSetup (cfg : Config) : Setup :=
  { apiToken := cfg.ApiToken
    bodyPre := mkReqBodyStrPre cfg
    bodySuf := mkReqBodyStrSuf cfg
    readIPURL := strBytes "https://checkip.amazonaws.com/"
    setRecordURL :=
      strBytes "https://api.cloudflare.com/client/v4/zones/" ++
        pathEscapeB (strBytes cfg.ZoneID) ++ strBytes "/dns_records/" ++
        pathEscapeB (strBytes cfg.RecordID) }

/-- Model of the construction phase of newSyncFunc (run.go lines 138-161): the
body pieces are computed (total), then the two base requests are built; each
http.NewRequest failure is a panic in the source and an error value here. -/
def newSyncFuncSetup (cfg : Config) : Except SetupPanic Setup :=
  if goNewRequestOk "GET" (strBytes "https://checkip.amazonaws.com/") then
    if goNewRequestOk "PUT"
        (strBytes "https://api.cloudflare.com/client/v4/zones/" ++
          pathEscapeB (strBytes cfg.ZoneID) ++ strBytes "/dns_records/" ++
          pathEscapeB (strBytes cfg.RecordID)) then
      .ok (mkSetup cfg)
    else .error .setRecordReqFailed
  else .error .readIPReqFailed

/-! ## Per-tick sync step, from the closure returned by newSyncFunc
(run.go lines 165-282) -/

/-- Oracle for one HTTP response: its status code, the outcome io.ReadAll on the
response body would produce, and the outcome draining the response body
(io.Copy to io.Discard) would produce. The drain field exists so that theorems
can speak about what reading the response body to completion would do; whether
the code actually performs either read is recorded in the step traces. -/
structure RespOracle where
  StatusCode : Int
  readAllResult : Except String String
  respDrainResult : Except String Unit

/-- Oracle for one http.Client.Do call: a transport error (with its message) or
a response. -/
inductive DoResult where
  | transportError (msg : String)
  | resp (r : RespOracle)

/-- Oracles for the at most two HTTP calls of one tick. -/
structure TickOracle where
  discovery : DoResult
  update : DoResult

/-- Errors of the IP-discovery block (run.go lines 172-205), with the message
payloads the source attaches. -/
inductive DiscErr where
  | transport (inner : String)
  | reqBodyDrain (inner : String)
  | badStatus (code : Int)
  | readBody (inner : String)
  | invalidIP

/-- Errors of the record-update block (run.go lines 229-270). -/
inductive UpdErr where
  | transport (inner : String)
  | badStatus (code : Int)

/-- Error of one sync tick: a discovery-phase or an update-phase error. -/
inductive SyncErr where
  | discovery (e : DiscErr)
  | update (e : UpdErr)

/-- Message text of a discovery error, mirroring the source strings. -/
def discErrMsg : DiscErr → String
  | .transport inner => "failed to get response from checkip.amazonaws.com: " ++ inner
  | .reqBodyDrain inner => inner
  | .badStatus code =>
    "response status code from checkip.amazonaws.com is not in 2xx range: " ++ itoa code
  | .readBody inner => inner
  | .invalidIP => "checkip.amazonaws.com failed to return a valid IP address in response body"

/-- Message text of an update error, mirroring the source strings. -/
def updErrMsg : UpdErr → String
  | .transport inner => "failed to get response from cloudflare api: " ++ inner
  | .badStatus code => "unexpected response status code from cloudflare: " ++ itoa code

/-- Message text of a tick error, with the wrapping prefixes from run.go lines
207 and 272. -/
def syncErrMsg : SyncErr → String
  | .discovery e => "failed to determine IP address: " ++ discErrMsg e
  | .update e => "failed to verify Cloudflare DNS record was updated: " ++ updErrMsg e

/-- Outcome of draining http.NoBody (the GET request body): reading it yields
immediate end of input, so the copy always succeeds. -/
def httpNoBodyDrain : Except String Unit :=
  .ok ()

/-- Header list with the given key set to the given value, replacing any prior
entry, as net/http Header.Set does. -/
def headerSet (k v : String) (h : List (String × String)) : List (String × String) :=
  h.filter (fun p => p.1 != k) ++ [(k, v)]

/-- Value of a header key in a header list. -/
def headerGet (k : String) (h : List (String × String)) : Option String :=
  (h.find? (fun p => p.1 == k)).map (fun p => p.2)

/-- The request decorator installed by run (run.go lines 68-71): it sets the
User-Agent header and changes nothing else. -/
def runReqDeco (h : List (String × String)) : List (String × String) :=
  headerSet "User-Agent" "github.com---josephcopenhaver--cloudflare-dns-sync/1.0" h

/-- Result of the discovery block: the outcome (the trimmed IP on success, with
its JSON encoding), and a trace of which body reads the code performed.
respBodyDrained records an io.Copy of the RESPONSE body to io.Discard,
respBodyRead an io.ReadAll of the response body, reqBodyDrained an io.Copy of
the REQUEST body (the source drains req.Body at line 181). -/
structure DiscResult where
  out : Except DiscErr String
  jsonIP : String
  respBodyDrained : Bool
  respBodyRead : Bool
  reqBodyDrained : Bool

/-- Model of the IP-discovery block (run.go lines 172-205). The validity test of
net.ParseIP enters the control flow only through its Boolean outcome, so it is a
parameter valid. On a non-2xx status the source copies req.Body (the GET request
body, http.NoBody) to io.Discard, returning the copy error if any, and then
returns the status error; the response body is only closed, never read. On a 2xx
status the response body is read fully, trimmed, validated and JSON-encoded
(string marshaling cannot error). -/
def discoverStep (valid : String → Bool) (d : DoResult) : DiscResult :=
  match d with
  | .transportError m =>
    { out := .error (.transport m), jsonIP := "", respBodyDrained := false
      respBodyRead := false, reqBodyDrained := false }
  | .resp r =>
    if r.StatusCode < 200 || 300 ≤ r.StatusCode then
      match httpNoBodyDrain with
      | .error m =>
        { out := .error (.reqBodyDrain m), jsonIP := "", respBodyDrained := false
          respBodyRead := false, reqBodyDrained := true }
      | .ok _ =>
        { out := .error (.badStatus r.StatusCode), jsonIP := "", respBodyDrained := false
          respBodyRead := false, reqBodyDrained := true }
    else
      match r.readAllResult with
      | .error m =>
        { out := .error (.readBody m), jsonIP := "", respBodyDrained := false
          respBodyRead := true, reqBodyDrained := false }
      | .ok b =>
        let ip := goTrimSpace b
        if valid ip then
          { out := .ok ip, jsonIP := goJSONEncodeString ip, respBodyDrained := false
            respBodyRead := true, reqBodyDrained := false }
        else
          { out := .error .invalidIP, jsonIP := "", respBodyDrained := false
            respBodyRead := true, reqBodyDrained := false }

/-- Result of the update block: the outcome and a trace of the request body,
request headers and body reads performed. As in DiscResult, reqBodyDrained
records the io.Copy of req.Body the source performs (lines 252 and 262);
the response body is never read. -/
structure UpdResult where
  out : Except UpdErr Unit
  reqBody : String
  reqHeaders : List (String × String)
  respBodyDrained : Bool
  respBodyRead : Bool
  reqBodyDrained : Bool

/-- Model of the record-update block (run.go lines 229-270). The request body is
the precomputed pieces around the JSON-encoded IP; Content-Type and
Authorization are set and the decorator applied. On any status the source drains
req.Body (a fully consumable strings.Reader, so the copy succeeds) and never
reads resp.Body; a copy error would only be logged, on both the non-2xx path
(lines 252-257) and the 2xx path (lines 262-267), never returned. Success is
exactly a 2xx status. -/
def updateStep (setup : Setup) (deco : List (String × String) → List (String × String))
    (jsonIP : String) (d : DoResult) : UpdResult :=
  let body := setup.bodyPre ++ jsonIP ++ setup.bodySuf
  let hdrs := deco (headerSet "Authorization" ("Bearer " ++ setup.apiToken)
    (headerSet "Content-Type" "application/json" []))
  match d with
  | .transportError m =>
    { out := .error (.transport m), reqBody := body, reqHeaders := hdrs
      respBodyDrained := false, respBodyRead := false, reqBodyDrained := false }
  | .resp r =>
    if r.StatusCode < 200 || 300 ≤ r.StatusCode then
      { out := .error (.badStatus r.StatusCode), reqBody := body, reqHeaders := hdrs
        respBodyDrained := false, respBodyRead := false, reqBodyDrained := true }
    else
      { out := .ok (), reqBody := body, reqHeaders := hdrs
        respBodyDrained := false, respBodyRead := false, reqBodyDrained := true }

/-- Result of one tick: the returned error value, the lastKnownIP closure state
after the tick, and the update-step trace when the update call was made. -/
structure TickResult where
  out : Except SyncErr Unit
  newIP : String
  upd : Option UpdResult

/-- Model of one invocation of the closure returned by newSyncFunc (run.go lines
165-282), with the lastKnownIP state (oldIP in the source) passed explicitly. A
discovery error is wrapped and returned with the state unchanged; an unchanged
IP is a no-op success; otherwise the update step runs once and the state is
replaced by the new IP exactly when it succeeds. -/
def syncTick (setup : Setup) (deco : List (String × String) → List (String × String))
    (valid : String → Bool) (oldIP : String) (o : TickOracle) : TickResult :=
  let dr := discoverStep valid o.discovery
  match dr.out with
  | .error e => { out := .error (.discovery e), newIP := oldIP, upd := none }
  | .ok ip =>
    if ip = oldIP then { out := .ok (), newIP := oldIP, upd := none }
    else
      let ur := updateStep setup deco dr.jsonIP o.update
      match ur.out with
      | .error e => { out := .error (.update e), newIP := oldIP, upd := some ur }
      | .ok _ => { out := .ok (), newIP := ip, upd := some ur }

/-! ## The run loop, from run (run.go lines 49-136) -/

/-- Inputs for one iteration of the loop: the tick oracle, whether the
cancellation signal is observed at the select immediately after the sync
attempt (lines 118-122), and whether it is observed at the select while waiting
for the next tick (lines 130-134). -/
structure TickStep where
  oracle : TickOracle
  cancelAfterSync : Bool
  cancelDuringWait : Bool

/-- How a modeled run ends: returned means the Go function returned (it returns
nil on every loop exit path); running means the supplied schedule ended without
an observed cancellation, with the loop still going. -/
inductive RunOutcome where
  | returned
  | running (lastIP : String)

/-- Outcome of a modeled run together with the number of HTTP calls issued (one
per discovery attempt plus one per update attempt). -/
structure RunResult where
  outcome : RunOutcome
  networkCalls : Nat

/-- The loop body of run (lines 101-135): sync, check cancellation, release idle
connections, wait (checking cancellation), repeat; consecutive failures only
feed logging and do not alter control flow. -/
def runLoopAux (setup : Setup) (deco : List (String × String) → List (String × String))
    (valid : String → Bool) : String → Nat → List TickStep → RunResult
  | oldIP, calls, [] => ⟨.running oldIP, calls⟩
  | oldIP, calls, step :: rest =>
    let t := syncTick setup deco valid oldIP step.oracle
    let calls2 := calls + 1 + (match t.upd with | some _ => 1 | none => 0)
    if step.cancelAfterSync then ⟨.returned, calls2⟩
    else if step.cancelDuringWait then ⟨.returned, calls2⟩
    else runLoopAux setup deco valid t.newIP calls2 rest

/-- Model of run after construction of the sync function (run.go lines 73-135):
if the context is already canceled before the first tick the function returns
(nil) without any network call; otherwise the loop starts from the empty
lastKnownIP. -/
def runGo (setup : Setup) (deco : List (String × String) → List (String × String))
    (valid : String → Bool) (cancelledAtStart : Bool) (steps : List TickStep) : RunResult :=
  if cancelledAtStart then ⟨.returned, 0⟩
  else runLoopAux setup deco valid "" 0 steps

/-! ## A concrete IP validity predicate for witnesses -/

/-- Validity of one dotted-decimal field as in the Go net/netip IPv4 parser: one
to three digits, no leading zero unless the field is exactly 0, value at most
255. -/
def ipv4FieldOk (f : List Char) : Bool :=
  decide (1 ≤ f.length) && decide (f.length ≤ 3) && f.all isDigitChar &&
    (decide (f.length = 1) || f.head? != some '0') && decide (digitsVal f ≤ 255)

/-- Splitting of a character list at dots, keeping empty fields. -/
def splitOnDot : List Char → List (List Char)
  | [] => [[]]
  | c :: rest =>
    if c = '.' then [] :: splitOnDot rest
    else
      match splitOnDot rest with
      | [] => [[c]]
      | h :: t => (c :: h) :: t

/-- The IPv4 fragment of the validity test of Go net.ParseIP: four dotted
decimal fields. It instantiates the abstract validity parameter of discoverStep
in concrete witnesses. -/
def goParseIPv4Ok (s : String) : Bool :=
  match splitOnDot s.data with
  | [a, b, c, d] => ipv4FieldOk a && ipv4FieldOk b && ipv4FieldOk c && ipv4FieldOk d
  | _ => false

/-! ## Concrete inputs used by witnesses and counterexamples -/

/-- Environment with no relevant variable set. -/
def emptyEnv : Env :=
  ⟨none, none, none, none, none⟩

/-- Field values decoded from a config file whose contents are the empty JSON
object. -/
def emptyFileCfg : FileCfg :=
  ⟨"", "", "", "", none⟩

/-- Environment with only CLOUDFLARE_RECORD_TTL=abc set. -/
def envAbc : Env :=
  ⟨none, none, none, some "abc", none⟩

/-- Environment with only CLOUDFLARE_RECORD_TTL=0 set. -/
def envZero : Env :=
  ⟨none, none, none, some "0", none⟩

/-- Config file supplying every string field. -/
def fullFileCfg : FileCfg :=
  ⟨"z1", "r1", "name1", "tok1", none⟩

/-- Environment setting every string variable, for the C3 counterexample. -/
def c3Env : Env :=
  ⟨some "env-zone", some "env-rec", some "env-name", none, some "env-tok"⟩

/-- Config file setting every string field, for the C3 counterexample. -/
def c3File : FileCfg :=
  ⟨"file-zone", "file-rec", "file-name", "file-tok", none⟩

/-- Environment for the C3 amended-claim witness: zone id comes from the
environment because the file leaves it empty. -/
def c3wEnv : Env :=
  ⟨some "envz", none, none, none, some "envt"⟩

/-- Config file for the C3 amended-claim witness, with an empty zone id. -/
def c3wFile : FileCfg :=
  ⟨"", "r", "n", "t", none⟩

/-- A concrete validated configuration. -/
def cfgW : Config :=
  ⟨"zone1", "rec1", "test.example.com", "token1", none, 120, false⟩

/-- The Setup of the concrete configuration. -/
def setupW : Setup :=
  mkSetup cfgW

/-- Tick oracle where discovery returns 200 with the body 2.2.3.4 and the
update call returns 200. -/
def oW : TickOracle :=
  ⟨.resp ⟨200, .ok "2.2.3.4\n", .ok ()⟩, .resp ⟨200, .ok "resp", .ok ()⟩⟩

/-- Discovery response with a 500 status whose response body would fail to
drain, for the C4 evaluation. -/
def d500disc : DoResult :=
  .resp ⟨500, .ok "server error page", .error "read fail"⟩

/-- Update response with a 500 status whose response body would fail to drain,
for the C4 evaluation. -/
def d500upd : DoResult :=
  .resp ⟨500, .ok "", .error "read fail"⟩

/-- Tick oracle whose discovery call answers 500, for the C6 witness. -/
def oC6W : TickOracle :=
  ⟨d500disc, .resp ⟨200, .ok "", .ok ()⟩⟩

/-- A loop step that observes cancellation right after the sync attempt. -/
def stepW : TickStep :=
  ⟨oW, true, false⟩

/-! ## Helper lemmas -/

/-- Character data of an appended string is the appended data. -/
theorem strDataAppend (s t : String) : (s ++ t).data = s.data ++ t.data :=
  rfl

/-- Taking the length of the left part of an appended list gives the left part. -/
theorem listTakeLen {α : Type} (l m : List α) : (l ++ m).take l.length = l := by
  induction l with
  | nil => rfl
  | cons a as ih => simp [ih]

/-- The list-level form of trimming a one-character suffix that is present. -/
theorem goTrimSuffix_mk (l : List Char) (c : Char) :
    goTrimSuffix ⟨l ++ [c]⟩ ⟨[c]⟩ = ⟨l⟩ := by
  show (if (l ++ [c]).reverse.take [c].length = [c].reverse then
      (⟨(l ++ [c]).take ((l ++ [c]).length - [c].length)⟩ : String)
    else ⟨l ++ [c]⟩) = ⟨l⟩
  simp [listTakeLen]

/-- Trimming the newline the json encoder appends recovers the encoder output. -/
theorem goTrimSuffix_newline (s : String) : goTrimSuffix (s ++ "\n") "\n" = s :=
  goTrimSuffix_mk s.data '\n'

/-- String append is associative. -/
theorem strAppendAssoc (a b c : String) : a ++ b ++ c = a ++ (b ++ c) := by
  show (⟨a.data ++ b.data ++ c.data⟩ : String) = ⟨a.data ++ (b.data ++ c.data)⟩
  rw [List.append_assoc]

/-- A list is a leading segment of itself followed by anything. -/
theorem listPre_append (p r : List Char) : listPre p (p ++ r) = true := by
  induction p with
  | nil => rfl
  | cons a as ih => simp [listPre, ih]

/-- A string begins every extension of itself. -/
theorem strHasPre_append (p rest : String) : strHasPre p (p ++ rest) = true :=
  listPre_append p.data rest.data

/-- The per-field merge of load agrees with the spec-worded merged field. -/
theorem mergeField_eq_spec (cur : String) (envV : Option String) :
    mergeField cur envV = specMergedField cur envV := by
  unfold mergeField specMergedField
  by_cases h : cur = ""
  · subst h; simp
  · simp [h]

/-- When loadFinish succeeds the receiver gets the merged result with the
noCfgFile flag recorded. -/
theorem loadFinish_ok (c : Config) (n e : Bool) (r : Config)
    (h : (Config.loadFinish c n e r).1 = none) :
    (Config.loadFinish c n e r).2 = { r with noCfgFile := n } := by
  unfold Config.loadFinish at h ⊢
  by_cases h1 : (r.isEmpty && n) = true
  · simp [h1] at h
  · by_cases h2 : (r.isEmpty && e) = true
    · simp [h1, h2] at h
    · simp [h1, h2]

/-- When loadFinish fails the receiver keeps its prior value. -/
theorem loadFinish_err (c : Config) (n e : Bool) (r : Config) (le : LoadError)
    (h : (Config.loadFinish c n e r).1 = some le) :
    (Config.loadFinish c n e r).2 = c := by
  unfold Config.loadFinish at h ⊢
  by_cases h1 : (r.isEmpty && n) = true
  · simp [h1]
  · by_cases h2 : (r.isEmpty && e) = true
    · simp [h1, h2]
    · simp [h1, h2] at h

/-- When loadMerge fails the receiver keeps its prior value. -/
theorem loadMerge_err (c : Config) (env : Env) (n : Bool) (r0 : Config) (le : LoadError)
    (h : (Config.loadMerge c env n r0).1 = some le) :
    (Config.loadMerge c env n r0).2 = c := by
  simp only [Config.loadMerge] at h ⊢
  cases h1 : lookupNonEmpty env.ttl with
  | none =>
    simp only [h1] at h ⊢
    exact loadFinish_err _ _ _ _ _ h
  | some s =>
    simp only [h1] at h ⊢
    cases h2 : ttlFromEnv s with
    | error u => simp [h2]
    | ok v =>
      simp only [h2] at h ⊢
      exact loadFinish_err _ _ _ _ _ h

/-- When loadMerge succeeds, the merged fields are the per-field merges, the
TTL is the strictly parsed environment value when that variable is set and
non-empty and otherwise the file value or the default 120. -/
theorem loadMerge_ok (c : Config) (env : Env) (n : Bool) (r0 : Config)
    (h : (Config.loadMerge c env n r0).1 = none) :
    ∃ t : Int,
      (Config.loadMerge c env n r0).2 =
        { ZoneID := mergeField r0.ZoneID env.zoneID
          RecordID := mergeField r0.RecordID env.recordID
          RecordName := mergeField r0.RecordName env.recordName
          ApiToken := mergeField r0.ApiToken env.apiToken
          TTLPtr := r0.TTLPtr
          ttl := t
          noCfgFile := n } ∧
      (∀ s, lookupNonEmpty env.ttl = some s → ttlFromEnv s = .ok t) ∧
      (lookupNonEmpty env.ttl = none →
        t = (match r0.TTLPtr with | none => 120 | some v => v)) := by
  simp only [Config.loadMerge] at h ⊢
  cases h1 : lookupNonEmpty env.ttl with
  | none =>
    simp only [h1] at h ⊢
    refine ⟨(match r0.TTLPtr with | none => 120 | some v => v), ?_, ?_, ?_⟩
    · have h2 := loadFinish_ok _ _ _ _ h
      rw [h2]
    · intro s hs
      simp at hs
    · intro _
      rfl
  | some s0 =>
    simp only [h1] at h ⊢
    cases h2 : ttlFromEnv s0 with
    | error u =>
      simp only [h2] at h
      cases h
    | ok v =>
      simp only [h2] at h ⊢
      refine ⟨v, ?_, ?_, ?_⟩
      · have h3 := loadFinish_ok _ _ _ _ h
        rw [h3]
      · intro s hs
        injection hs with hss
        subst hss
        exact h2
      · intro hnone
        simp at hnone

/-! ## Claim theorems: configuration -/

/-- C2: the claim says that with a missing config file, or a present-but-empty
one, and no relevant environment variable set, configuration loading fails with
a "no configuration" error. The code does not do this: load assigns the TTL
default 120 before its final isEmpty check, so the merged result is never the
zero value, load returns no error, and the overall Load fails later in validate
with the CLOUDFLARE_API_TOKEN-required error instead. This theorem evaluates
the model at both claimed failing inputs. -/
theorem claim_C2_code_behavior :
    (Config.load Config.zero emptyEnv (.parsed emptyFileCfg)).1 = none ∧
    (Config.load Config.zero emptyEnv (.parsed emptyFileCfg)).2.ttl = 120 ∧
    (Config.Load Config.zero emptyEnv (.parsed emptyFileCfg)).1 =
      some (Sum.inr ValidateError.apiTokenRequired) ∧
    (Config.load Config.zero emptyEnv .missing).1 = none ∧
    (Config.Load Config.zero emptyEnv .missing).1 =
      some (Sum.inr ValidateError.apiTokenRequired) :=
  ⟨rfl, rfl, rfl, rfl, rfl⟩

/-- C3 counterexample: the claim says a set, non-empty environment variable
overrides the config-file value for every field. At this concrete input the file
sets every string field and the environment sets different values for them; the
merged configuration keeps the file values, not the environment values. -/
theorem claim_C3_counterexample :
    (Config.load Config.zero c3Env (.parsed c3File)).1 = none ∧
    (Config.load Config.zero c3Env (.parsed c3File)).2.ZoneID = "file-zone" ∧
    ¬ (Config.load Config.zero c3Env (.parsed c3File)).2.ZoneID = "env-zone" ∧
    (Config.load Config.zero c3Env (.parsed c3File)).2.ApiToken = "file-tok" ∧
    ¬ (Config.load Config.zero c3Env (.parsed c3File)).2.ApiToken = "env-tok" := by
  refine ⟨rfl, rfl, ?_, rfl, ?_⟩ <;> decide

/-- C3 amended: for the zone id, record id, record name and API token the
config-file value takes priority and the set, non-empty environment variable is
only a fallback for an empty file value; only for the TTL does a set, non-empty
environment variable override the file value (through the strict parse),
otherwise the TTL is the file value or the default 120. -/
theorem claim_C3_amended (c : Config) (env : Env) (f : FileCfg)
    (h : (Config.load c env (.parsed f)).1 = none) :
    (Config.load c env (.parsed f)).2.ZoneID = specMergedField f.ZoneID env.zoneID ∧
    (Config.load c env (.parsed f)).2.RecordID = specMergedField f.RecordID env.recordID ∧
    (Config.load c env (.parsed f)).2.RecordName = specMergedField f.RecordName env.recordName ∧
    (Config.load c env (.parsed f)).2.ApiToken = specMergedField f.ApiToken env.apiToken ∧
    (∀ s, lookupNonEmpty env.ttl = some s →
      ∃ v, ttlFromEnv s = .ok v ∧ (Config.load c env (.parsed f)).2.ttl = v) ∧
    (lookupNonEmpty env.ttl = none →
      (Config.load c env (.parsed f)).2.ttl =
        (match f.TTLPtr with | none => 120 | some v => v)) := by
  obtain ⟨t, ht, hsome, hnone⟩ := loadMerge_ok c env false f.toConfig h
  have hload : Config.load c env (.parsed f) = Config.loadMerge c env false f.toConfig := rfl
  rw [hload, ht]
  refine ⟨mergeField_eq_spec _ _, mergeField_eq_spec _ _, mergeField_eq_spec _ _,
    mergeField_eq_spec _ _, ?_, ?_⟩
  · intro s hs
    exact ⟨t, hsome s hs, rfl⟩
  · intro hn
    exact hnone hn

/-- C3 witness: a concrete successful load where the file leaves the zone id
empty and the environment supplies it, matching the amended merge. -/
theorem claim_C3_witness :
    (Config.load Config.zero c3wEnv (.parsed c3wFile)).1 = none ∧
    (Config.load Config.zero c3wEnv (.parsed c3wFile)).2.ZoneID =
      specMergedField c3wFile.ZoneID c3wEnv.zoneID ∧
    (Config.load Config.zero c3wEnv (.parsed c3wFile)).2.ZoneID = "envz" := by
  have h := claim_C3_amended Config.zero c3wEnv c3wFile rfl
  exact ⟨rfl, h.1, rfl⟩

/-- C8: the CLOUDFLARE_RECORD_TTL value is parsed strictly, in that acceptance
implies the re-serialized integer reproduces the original string; the value
"abc" makes load fail with the TTL parse error for every receiver and file; and
a parsed TTL of 0 makes overall loading fail with the TTL validation error. -/
theorem claim_C8 :
    (∀ s v, ttlFromEnv s = .ok v → itoa v = s) ∧
    (∀ (c : Config) (f : FileCfg),
      (Config.load c envAbc (.parsed f)).1 = some LoadError.ttlParseError) ∧
    (Config.Load Config.zero envZero (.parsed fullFileCfg)).1 =
      some (Sum.inr ValidateError.ttlTooSmall) := by
  refine ⟨?_, ?_, rfl⟩
  · intro s v h
    unfold ttlFromEnv at h
    cases h1 : atoi s with
    | error u => rw [h1] at h; cases h
    | ok w =>
      rw [h1] at h
      by_cases h2 : itoa w = s
      · simp only [h2, if_pos] at h
        injection h with hv
        subst hv
        exact h2
      · simp [h2] at h
  · intro c f
    have h1 : lookupNonEmpty envAbc.ttl = some "abc" := rfl
    have h2 : ttlFromEnv "abc" = .error () := rfl
    show (Config.loadMerge c envAbc false f.toConfig).1 = some LoadError.ttlParseError
    simp only [Config.loadMerge, h1, h2]

/-- C8 witness: the strictness direction applied at the concrete accepted
string, together with the concrete load failure. -/
theorem claim_C8_witness :
    ttlFromEnv "7" = .ok 7 ∧ itoa 7 = "7" ∧
    (Config.load Config.zero envAbc (.parsed emptyFileCfg)).1 =
      some LoadError.ttlParseError :=
  ⟨rfl, claim_C8.1 "7" 7 rfl, claim_C8.2.1 Config.zero emptyFileCfg⟩

/-- C10: load is atomic in its receiver: whenever it returns an error, the
receiver value is unchanged, for every starting value, environment and file
outcome. -/
theorem claim_C10 (c : Config) (env : Env) (file : FileResult) (e : LoadError)
    (h : (Config.load c env file).1 = some e) :
    (Config.load c env file).2 = c := by
  cases file with
  | openError => rfl
  | decodeError => rfl
  | missing => exact loadMerge_err _ _ _ _ _ h
  | parsed f => exact loadMerge_err _ _ _ _ _ h

/-- C10 witness: a concrete failing load (TTL parse error) leaving the receiver
at its prior value. -/
theorem claim_C10_witness :
    (Config.load Config.zero envAbc .missing).1 = some LoadError.ttlParseError ∧
    (Config.load Config.zero envAbc .missing).2 = Config.zero :=
  ⟨rfl, claim_C10 Config.zero envAbc .missing LoadError.ttlParseError rfl⟩

/-! ## Helper lemmas: sync step -/

/-- Request body and headers of the update step do not depend on the transport
outcome: the body is the precomputed pieces around the encoded IP and the
headers are Content-Type, then Authorization, then the decorator. -/
theorem updateStep_req (setup : Setup) (deco : List (String × String) → List (String × String))
    (j : String) (d : DoResult) :
    (updateStep setup deco j d).reqBody = setup.bodyPre ++ j ++ setup.bodySuf ∧
    (updateStep setup deco j d).reqHeaders =
      deco (headerSet "Authorization" ("Bearer " ++ setup.apiToken)
        (headerSet "Content-Type" "application/json" [])) := by
  cases d with
  | transportError m => exact ⟨rfl, rfl⟩
  | resp r =>
    refine ⟨?_, ?_⟩ <;> (simp only [updateStep]; split <;> rfl)

/-- On a success status the update step succeeds. -/
theorem updateStep_ok_iff (setup : Setup) (deco : List (String × String) → List (String × String))
    (j : String) (d : DoResult) :
    (updateStep setup deco j d).out = .ok () ↔
      (∃ r, d = DoResult.resp r ∧ 200 ≤ r.StatusCode ∧ r.StatusCode < 300) := by
  cases d with
  | transportError m =>
    simp only [updateStep]
    constructor
    · intro h; cases h
    · rintro ⟨r, hr, -⟩; cases hr
  | resp r =>
    unfold updateStep
    by_cases h1 : (r.StatusCode < 200 || 300 ≤ r.StatusCode) = true
    · simp only [h1, if_true]
      constructor
      · intro h; cases h
      · rintro ⟨r2, hr2, ha, hb⟩
        injection hr2 with hr2
        subst hr2
        simp only [Bool.or_eq_true, decide_eq_true_eq] at h1
        omega
    · simp only [h1, if_false]
      constructor
      · intro _
        refine ⟨r, rfl, ?_, ?_⟩ <;>
          (simp only [Bool.or_eq_true, decide_eq_true_eq, not_or, not_lt, not_le] at h1; omega)
      · intro _; rfl

/-- A successful discovery step has the whole shape determined: the trimmed IP,
its JSON encoding, and the trace showing a full read of the response body and
no drains. -/
theorem discover_ok_shape (valid : String → Bool) (d : DoResult) (ip : String)
    (h : (discoverStep valid d).out = .ok ip) :
    discoverStep valid d =
      { out := .ok ip, jsonIP := goJSONEncodeString ip, respBodyDrained := false
        respBodyRead := true, reqBodyDrained := false } := by
  cases d with
  | transportError m => exact absurd h (by simp [discoverStep])
  | resp r =>
    unfold discoverStep at h ⊢
    by_cases h1 : (r.StatusCode < 200 || 300 ≤ r.StatusCode) = true
    · simp [h1, httpNoBodyDrain] at h
    · simp only [h1, if_false] at h ⊢
      cases h2 : r.readAllResult with
      | error m => simp [h2] at h
      | ok b =>
        simp only [h2] at h ⊢
        by_cases h3 : valid (goTrimSpace b) = true
        · simp only [h3, if_true] at h ⊢
          injection h with hip
          subst hip
          rfl
        · simp [h3] at h

/-- The update branch of a tick, when discovery yields a changed IP: the update
step runs with the encoded IP, and the cached value moves to the new IP exactly
when the update succeeds. -/
theorem syncTick_ne (setup : Setup) (deco : List (String × String) → List (String × String))
    (valid : String → Bool) (oldIP : String) (o : TickOracle) (ip : String)
    (hd : (discoverStep valid o.discovery).out = .ok ip) (hne : ip ≠ oldIP) :
    (syncTick setup deco valid oldIP o).upd =
      some (updateStep setup deco (goJSONEncodeString ip) o.update) ∧
    ((updateStep setup deco (goJSONEncodeString ip) o.update).out = .ok () →
      (syncTick setup deco valid oldIP o).newIP = ip ∧
      (syncTick setup deco valid oldIP o).out = .ok ()) ∧
    ((updateStep setup deco (goJSONEncodeString ip) o.update).out ≠ .ok () →
      (syncTick setup deco valid oldIP o).newIP = oldIP) := by
  have hshape := discover_ok_shape valid o.discovery ip hd
  unfold syncTick
  rw [hshape]
  simp only [hne, if_false]
  cases hu : (updateStep setup deco (goJSONEncodeString ip) o.update).out with
  | error e =>
    refine ⟨rfl, ?_, ?_⟩
    · intro hok
      cases hok
    · intro _
      rfl
  | ok u =>
    cases u
    refine ⟨rfl, ?_, ?_⟩
    · intro _
      exact ⟨rfl, rfl⟩
    · intro hne2
      exact absurd rfl hne2

/-- The no-op branch of a tick, when discovery yields the cached IP. -/
theorem syncTick_eq (setup : Setup) (deco : List (String × String) → List (String × String))
    (valid : String → Bool) (oldIP : String) (o : TickOracle) (ip : String)
    (hd : (discoverStep valid o.discovery).out = .ok ip) (heq : ip = oldIP) :
    syncTick setup deco valid oldIP o = { out := .ok (), newIP := oldIP, upd := none } := by
  have hshape := discover_ok_shape valid o.discovery ip hd
  unfold syncTick
  rw [hshape]
  simp [heq]

/-- The failing-discovery branch of a tick: the wrapped discovery error is
returned, the state is unchanged, and no update step runs. -/
theorem syncTick_discErr (setup : Setup) (deco : List (String × String) → List (String × String))
    (valid : String → Bool) (oldIP : String) (o : TickOracle) (e : DiscErr)
    (hd : (discoverStep valid o.discovery).out = .error e) :
    syncTick setup deco valid oldIP o =
      { out := .error (.discovery e), newIP := oldIP, upd := none } := by
  simp only [syncTick, hd]

/-- The successful-discovery outcomes of discoverStep are exactly the responses
with a 2xx status, fully readable body and valid trimmed IP literal. -/
theorem discover_ok_iff (valid : String → Bool) (d : DoResult) :
    (∃ ip, (discoverStep valid d).out = .ok ip) ↔
      (∃ r b, d = DoResult.resp r ∧ 200 ≤ r.StatusCode ∧ r.StatusCode < 300 ∧
        r.readAllResult = .ok b ∧ valid (goTrimSpace b) = true) := by
  cases d with
  | transportError m =>
    constructor
    · rintro ⟨ip, h⟩
      cases h
    · rintro ⟨r, b, hr, -⟩
      cases hr
  | resp r =>
    unfold discoverStep
    by_cases h1 : (r.StatusCode < 200 || 300 ≤ r.StatusCode) = true
    · simp only [h1, if_true, httpNoBodyDrain]
      constructor
      · rintro ⟨ip, h⟩
        cases h
      · rintro ⟨r2, b, hr2, ha, hb, -⟩
        injection hr2 with hr2
        subst hr2
        simp only [Bool.or_eq_true, decide_eq_true_eq] at h1
        omega
    · simp only [h1, if_false]
      have hst : 200 ≤ r.StatusCode ∧ r.StatusCode < 300 := by
        simp only [Bool.or_eq_true, decide_eq_true_eq, not_or, not_lt, not_le] at h1
        omega
      cases h2 : r.readAllResult with
      | error m =>
        constructor
        · rintro ⟨ip, h⟩
          cases h
        · rintro ⟨r2, b, hr2, -, -, hb, -⟩
          injection hr2 with hr2
          subst hr2
          rw [h2] at hb
          cases hb
      | ok b =>
        by_cases h3 : valid (goTrimSpace b) = true
        · simp only [h3, if_true]
          constructor
          · intro _
            exact ⟨r, b, rfl, hst.1, hst.2, h2, h3⟩
          · intro _
            exact ⟨goTrimSpace b, rfl⟩
        · simp only [h3, if_false]
          constructor
          · rintro ⟨ip, h⟩
            cases h
          · rintro ⟨r2, b2, hr2, -, -, hb2, hv2⟩
            injection hr2 with hr2
            subst hr2
            rw [h2] at hb2
            injection hb2 with hb2
            subst hb2
            exact absurd hv2 h3

/-- A successful discovery over a readable body yields exactly the trimmed body. -/
theorem discover_ok_trim (valid : String → Bool) (r : RespOracle) (b ip : String)
    (hb : r.readAllResult = .ok b)
    (h : (discoverStep valid (DoResult.resp r)).out = .ok ip) : ip = goTrimSpace b := by
  unfold discoverStep at h
  by_cases h1 : (r.StatusCode < 200 || 300 ≤ r.StatusCode) = true
  · simp [h1, httpNoBodyDrain] at h
  · simp only [h1, if_false, hb] at h
    by_cases h3 : valid (goTrimSpace b) = true
    · simp only [h3, if_true] at h
      injection h with h
      exact h.symm
    · simp [h3] at h

/-- Every discovery-phase tick error carries the stable message prefix of the
discovery phase. -/
theorem syncErrMsg_disc_pre (e : DiscErr) :
    strHasPre "failed to determine IP address" (syncErrMsg (.discovery e)) = true := by
  show strHasPre "failed to determine IP address"
    ("failed to determine IP address: " ++ discErrMsg e) = true
  have h : ("failed to determine IP address: " : String) =
      "failed to determine IP address" ++ ": " := rfl
  rw [h, strAppendAssoc]
  exact strHasPre_append _ _

/-! ## Claim theorems: sync loop -/

/-- C1: on every tick whose discovery yields an IP, an unchanged IP is a no-op
success leaving the cache untouched with no update call; a changed IP triggers
exactly one update call whose body carries the new IP, the cache becomes the new
IP exactly when the update succeeds, and after a failed update the cache keeps
its prior value so a next tick discovering the same IP issues the same update
again. -/
theorem claim_C1 (setup : Setup) (deco : List (String × String) → List (String × String))
    (valid : String → Bool) (oldIP : String) (o : TickOracle) (ip : String)
    (hd : (discoverStep valid o.discovery).out = .ok ip) :
    (ip = oldIP →
      (syncTick setup deco valid oldIP o).out = .ok () ∧
      (syncTick setup deco valid oldIP o).newIP = oldIP ∧
      (syncTick setup deco valid oldIP o).upd = none) ∧
    (ip ≠ oldIP →
      (syncTick setup deco valid oldIP o).upd =
        some (updateStep setup deco (goJSONEncodeString ip) o.update) ∧
      (updateStep setup deco (goJSONEncodeString ip) o.update).reqBody =
        setup.bodyPre ++ goJSONEncodeString ip ++ setup.bodySuf ∧
      ((syncTick setup deco valid oldIP o).newIP = ip ↔
        (updateStep setup deco (goJSONEncodeString ip) o.update).out = .ok ()) ∧
      ((updateStep setup deco (goJSONEncodeString ip) o.update).out ≠ .ok () →
        (syncTick setup deco valid oldIP o).newIP = oldIP ∧
        ∀ o2 : TickOracle, (discoverStep valid o2.discovery).out = .ok ip →
          (syncTick setup deco valid (syncTick setup deco valid oldIP o).newIP o2).upd =
            some (updateStep setup deco (goJSONEncodeString ip) o2.update))) := by
  constructor
  · intro heq
    rw [syncTick_eq setup deco valid oldIP o ip hd heq]
    exact ⟨rfl, rfl, rfl⟩
  · intro hne
    obtain ⟨hupd, hok, herr⟩ := syncTick_ne setup deco valid oldIP o ip hd hne
    refine ⟨hupd, (updateStep_req setup deco (goJSONEncodeString ip) o.update).1, ?_, ?_⟩
    · constructor
      · intro hip
        by_contra hno
        have hstate := herr hno
        rw [hstate] at hip
        exact hne hip.symm
      · intro hok2
        exact (hok hok2).1
    · intro hno
      have hstate := herr hno
      refine ⟨hstate, ?_⟩
      intro o2 hd2
      rw [hstate]
      exact (syncTick_ne setup deco valid oldIP o2 ip hd2 hne).1

/-- C1 witness: a concrete tick whose discovery returns 2.2.3.4 while the cache
holds 1.1.1.1 and whose update succeeds. -/
theorem claim_C1_witness :
    (discoverStep goParseIPv4Ok oW.discovery).out = .ok "2.2.3.4" ∧
    (syncTick setupW runReqDeco goParseIPv4Ok "1.1.1.1" oW).upd =
      some (updateStep setupW runReqDeco (goJSONEncodeString "2.2.3.4") oW.update) ∧
    (syncTick setupW runReqDeco goParseIPv4Ok "1.1.1.1" oW).newIP = "2.2.3.4" := by
  have h := claim_C1 setupW runReqDeco goParseIPv4Ok "1.1.1.1" oW "2.2.3.4" rfl
  have h2 := h.2 (by decide)
  exact ⟨rfl, h2.1, h2.2.2.1.mpr rfl⟩

/-- C4: the claim says the response body is drained before closing on non-2xx
statuses. The code instead drains req.Body (the request body) in all three
drain sites and never reads the response body on a non-2xx status: at a 500
discovery response whose response body would fail to drain, the trace shows the
request body drained, the response body neither drained nor read, and the
returned error is the status error (not a drain error); the update step behaves
the same way. -/
theorem claim_C4_code_behavior :
    (discoverStep goParseIPv4Ok d500disc).reqBodyDrained = true ∧
    (discoverStep goParseIPv4Ok d500disc).respBodyDrained = false ∧
    (discoverStep goParseIPv4Ok d500disc).respBodyRead = false ∧
    (discoverStep goParseIPv4Ok d500disc).out = .error (.badStatus 500) ∧
    (updateStep setupW runReqDeco (goJSONEncodeString "2.2.3.4") d500upd).reqBodyDrained = true ∧
    (updateStep setupW runReqDeco (goJSONEncodeString "2.2.3.4") d500upd).respBodyDrained = false ∧
    (updateStep setupW runReqDeco (goJSONEncodeString "2.2.3.4") d500upd).out =
      .error (.badStatus 500) :=
  ⟨rfl, rfl, rfl, rfl, rfl, rfl, rfl⟩

/-- C6: the discovery step succeeds exactly when the transport succeeded, the
status is 2xx, the body was fully readable and the trimmed body is a valid IP
literal (the resulting IP being that trimmed body); every discovery error makes
the tick fail with the wrapped discovery-phase error, whose message carries the
stable discovery prefix, and no update call is attempted. -/
theorem claim_C6 (valid : String → Bool) (setup : Setup)
    (deco : List (String × String) → List (String × String)) (oldIP : String) (o : TickOracle) :
    ((∃ ip, (discoverStep valid o.discovery).out = .ok ip) ↔
      (∃ r b, o.discovery = DoResult.resp r ∧ 200 ≤ r.StatusCode ∧ r.StatusCode < 300 ∧
        r.readAllResult = .ok b ∧ valid (goTrimSpace b) = true)) ∧
    (∀ r b ip, o.discovery = DoResult.resp r → r.readAllResult = .ok b →
      (discoverStep valid o.discovery).out = .ok ip → ip = goTrimSpace b) ∧
    (∀ e, (discoverStep valid o.discovery).out = .error e →
      (syncTick setup deco valid oldIP o).out = .error (.discovery e) ∧
      (syncTick setup deco valid oldIP o).upd = none ∧
      strHasPre "failed to determine IP address" (syncErrMsg (.discovery e)) = true) := by
  refine ⟨discover_ok_iff valid o.discovery, ?_, ?_⟩
  · intro r b ip hr hb h
    rw [hr] at h
    exact discover_ok_trim valid r b ip hb h
  · intro e he
    rw [syncTick_discErr setup deco valid oldIP o e he]
    exact ⟨rfl, rfl, syncErrMsg_disc_pre e⟩

/-- C6 witness: a concrete 500 discovery response fails the tick with the
discovery-phase error and no update call. -/
theorem claim_C6_witness :
    (syncTick setupW runReqDeco goParseIPv4Ok "" oC6W).out =
      .error (.discovery (.badStatus 500)) ∧
    (syncTick setupW runReqDeco goParseIPv4Ok "" oC6W).upd = none ∧
    strHasPre "failed to determine IP address"
      (syncErrMsg (.discovery (.badStatus 500))) = true := by
  have h := claim_C6 goParseIPv4Ok setupW runReqDeco "" oC6W
  exact h.2.2 (.badStatus 500) rfl

/-- C7: for every configuration and IP, the update request body built from the
precomputed pieces is exactly the JSON object with the record type, encoded
record name, encoded IP content, TTL and proxied flag, and the request carries
the bearer Authorization and JSON Content-Type headers. -/
theorem claim_C7 (cfg : Config) (ip : String) (d : DoResult) :
    (updateStep (mkSetup cfg) runReqDeco (goJSONEncodeString ip) d).reqBody =
      "\x7b\"type\":\"A\",\"name\":" ++ goJSONEncodeString cfg.RecordName ++ ",\"content\":" ++
        goJSONEncodeString ip ++ ",\"ttl\":" ++ itoa cfg.ttl ++ ",\"proxied\":false\x7d" ∧
    headerGet "Authorization"
      (updateStep (mkSetup cfg) runReqDeco (goJSONEncodeString ip) d).reqHeaders =
        some ("Bearer " ++ cfg.ApiToken) ∧
    headerGet "Content-Type"
      (updateStep (mkSetup cfg) runReqDeco (goJSONEncodeString ip) d).reqHeaders =
        some "application/json" := by
  obtain ⟨hb, hh⟩ := updateStep_req (mkSetup cfg) runReqDeco (goJSONEncodeString ip) d
  refine ⟨?_, ?_, ?_⟩
  · rw [hb]
    show mkReqBodyStrPre cfg ++ goJSONEncodeString ip ++ mkReqBodyStrSuf cfg = _
    unfold mkReqBodyStrPre mkReqBodyStrSuf
    rw [goTrimSuffix_newline]
    simp only [strAppendAssoc]
  · rw [hh]
    rfl
  · rw [hh]
    rfl

/-- The loop body returns (nil) as soon as any step observes cancellation at
either checkpoint. -/
theorem runLoopAux_cancel (setup : Setup) (deco : List (String × String) → List (String × String))
    (valid : String → Bool) :
    ∀ (steps : List TickStep) (oldIP : String) (calls : Nat),
      (∃ s ∈ steps, s.cancelAfterSync = true ∨ s.cancelDuringWait = true) →
      (runLoopAux setup deco valid oldIP calls steps).outcome = .returned := by
  intro steps
  induction steps with
  | nil =>
    intro oldIP calls h
    rcases h with ⟨s, hs, -⟩
    cases hs
  | cons st rest ih =>
    intro oldIP calls h
    by_cases h1 : st.cancelAfterSync = true
    · simp [runLoopAux, h1]
    · by_cases h2 : st.cancelDuringWait = true
      · simp [runLoopAux, h1, h2]
      · simp only [runLoopAux, h1, h2, if_false]
        apply ih
        rcases h with ⟨s, hs, hflag⟩
        rcases List.mem_cons.mp hs with rfl | hmem
        · rcases hflag with hf | hf
          · exact absurd hf h1
          · exact absurd hf h2
        · exact ⟨s, hmem, hflag⟩

/-- C5: a cancellation signal already set before the first tick makes the loop
return (no error) with zero network calls; and an observed cancellation at
either loop checkpoint (after a sync attempt or while waiting for the next
tick) makes the loop return no error. -/
theorem claim_C5 (setup : Setup) (deco : List (String × String) → List (String × String))
    (valid : String → Bool) (steps : List TickStep) (cancelled : Bool) :
    runGo setup deco valid true steps = ⟨.returned, 0⟩ ∧
    ((∃ s ∈ steps, s.cancelAfterSync = true ∨ s.cancelDuringWait = true) →
      (runGo setup deco valid cancelled steps).outcome = .returned) := by
  constructor
  · rfl
  · intro h
    cases cancelled with
    | true => rfl
    | false =>
      show (runLoopAux setup deco valid "" 0 steps).outcome = .returned
      exact runLoopAux_cancel setup deco valid steps "" 0 h

/-- C5 witness: cancellation before the first tick returns with zero network
calls, and a single step observing cancellation after its sync returns. -/
theorem claim_C5_witness :
    runGo setupW runReqDeco goParseIPv4Ok true [stepW] = ⟨.returned, 0⟩ ∧
    (runGo setupW runReqDeco goParseIPv4Ok false [stepW]).outcome = .returned := by
  have h := claim_C5 setupW runReqDeco goParseIPv4Ok [stepW] false
  exact ⟨h.1, h.2 ⟨stepW, List.mem_singleton.mpr rfl, Or.inl rfl⟩⟩

/-- Code points of Lean characters are below the Unicode bound. -/
theorem char_toNat_lt (c : Char) : c.toNat < 1114112 := by
  have h := c.valid
  simp only [UInt32.isValidChar, Nat.isValidChar] at h
  show c.val.toNat < 1114112
  rcases h with h | ⟨h1, h2⟩
  · omega
  · omega

/-- UTF-8 encoding produces bytes. -/
theorem utf8Byte_lt (c : Nat) (hc : c < 1114112) : ∀ b ∈ utf8EncodeCharNat c, b < 256 := by
  intro b hb
  unfold utf8EncodeCharNat at hb
  by_cases h1 : c < 128
  · simp [h1] at hb
    omega
  · by_cases h2 : c < 2048
    · simp [h1, h2] at hb
      have hd : c / 64 < 32 := Nat.div_lt_of_lt_mul (by omega)
      have hm : c % 64 < 64 := Nat.mod_lt _ (by omega)
      rcases hb with rfl | rfl <;> omega
    · by_cases h3 : c < 65536
      · simp [h1, h2, h3] at hb
        have hd : c / 4096 < 16 := Nat.div_lt_of_lt_mul (by omega)
        have hm1 : c / 64 % 64 < 64 := Nat.mod_lt _ (by omega)
        have hm2 : c % 64 < 64 := Nat.mod_lt _ (by omega)
        rcases hb with rfl | rfl | rfl <;> omega
      · simp [h1, h2, h3] at hb
        have hd : c / 262144 < 5 := Nat.div_lt_of_lt_mul (by omega)
        have hm1 : c / 4096 % 64 < 64 := Nat.mod_lt _ (by omega)
        have hm2 : c / 64 % 64 < 64 := Nat.mod_lt _ (by omega)
        have hm3 : c % 64 < 64 := Nat.mod_lt _ (by omega)
        rcases hb with rfl | rfl | rfl | rfl <;> omega

/-- The UTF-8 bytes of every string are below 256. -/
theorem strBytes_lt (s : String) : ∀ b ∈ strBytes s, b < 256 := by
  intro b hb
  unfold strBytes at hb
  rw [List.mem_flatten] at hb
  rcases hb with ⟨m, hm, hbm⟩
  rw [List.mem_map] at hm
  rcases hm with ⟨ch, -, rfl⟩
  exact utf8Byte_lt ch.toNat (char_toNat_lt ch) b hbm

/-- Bytes left unescaped by path escaping are not control bytes. -/
theorem pathSegSafe_not_ctl (b : Nat) (h : pathSegSafe b = true) : isCtlByte b = false := by
  have hb : 32 ≤ b ∧ b ≠ 127 := by
    unfold pathSegSafe at h
    simp only [Bool.or_eq_true, Bool.and_eq_true, decide_eq_true_eq] at h
    omega
  have h1 : decide (b < 32) = false := decide_eq_false (by omega)
  have h2 : (b == 127) = false := beq_eq_false_iff_ne.mpr hb.2
  simp [isCtlByte, h1, h2]

/-- Uppercase hex digits are not control bytes. -/
theorem hexUpperDigit_not_ctl (n : Nat) (h : n < 16) : isCtlByte (hexUpperDigit n) = false := by
  have hb : 32 ≤ hexUpperDigit n ∧ hexUpperDigit n ≠ 127 := by
    unfold hexUpperDigit
    split <;> omega
  have h1 : decide (hexUpperDigit n < 32) = false := decide_eq_false (by omega)
  have h2 : (hexUpperDigit n == 127) = false := beq_eq_false_iff_ne.mpr hb.2
  simp [isCtlByte, h1, h2]

/-- Path escaping of byte input never produces a control byte. -/
theorem pathEscapeB_noCtl (l : List Nat) (hb : ∀ b ∈ l, b < 256) :
    hasCtlByte (pathEscapeB l) = false := by
  induction l with
  | nil => rfl
  | cons b rest ih =>
    unfold pathEscapeB hasCtlByte
    rw [List.any_append]
    have hrest : hasCtlByte (pathEscapeB rest) = false :=
      ih (fun x hx => hb x (List.mem_cons_of_mem b hx))
    unfold hasCtlByte at hrest
    rw [hrest]
    have h37 : isCtlByte 37 = false := rfl
    have hhead : (if pathSegSafe b then [b] else
        [37, hexUpperDigit (b / 16), hexUpperDigit (b % 16)]).any isCtlByte = false := by
      by_cases h1 : pathSegSafe b = true
      · simp [h1, pathSegSafe_not_ctl b h1]
      · have hblt : b < 256 := hb b (List.mem_cons_self b rest)
        have hd : b / 16 < 16 := Nat.div_lt_of_lt_mul (by omega)
        have hm : b % 16 < 16 := Nat.mod_lt _ (by omega)
        simp [h1, h37, hexUpperDigit_not_ctl _ hd, hexUpperDigit_not_ctl _ hm]
    rw [hhead]
    rfl

/-- C9: for every configuration that passed validation, the construction of the
sync function reaches no panic branch: both base requests are accepted because
the methods are valid tokens and the URLs built from path-escaped identifiers
contain no control byte (and the record-name encoding is total). -/
theorem claim_C9 (cfg : Config) (_validated : Config.validate cfg = none) :
    ∃ s, newSyncFuncSetup cfg = .ok s := by
  have hget : goNewRequestOk "GET" (strBytes "https://checkip.amazonaws.com/") = true := by
    decide
  have hput : goNewRequestOk "PUT"
      (strBytes "https://api.cloudflare.com/client/v4/zones/" ++
        pathEscapeB (strBytes cfg.ZoneID) ++ strBytes "/dns_records/" ++
        pathEscapeB (strBytes cfg.RecordID)) = true := by
    unfold goNewRequestOk
    rw [Bool.and_eq_true]
    refine ⟨by decide, ?_⟩
    rw [Bool.not_eq_true']
    unfold hasCtlByte
    rw [List.any_append, List.any_append, List.any_append]
    have h1 : (strBytes "https://api.cloudflare.com/client/v4/zones/").any isCtlByte = false := by
      decide
    have h2 := pathEscapeB_noCtl (strBytes cfg.ZoneID) (strBytes_lt cfg.ZoneID)
    have h3 : (strBytes "/dns_records/").any isCtlByte = false := by decide
    have h4 := pathEscapeB_noCtl (strBytes cfg.RecordID) (strBytes_lt cfg.RecordID)
    unfold hasCtlByte at h2 h4
    rw [h1, h2, h3, h4]
    rfl
  refine ⟨mkSetup cfg, ?_⟩
  unfold newSyncFuncSetup
  rw [if_pos hget, if_pos hput]

/-- C9 witness: the concrete validated configuration constructs its Setup. -/
theorem claim_C9_witness :
    Config.validate cfgW = none ∧ ∃ s, newSyncFuncSetup cfgW = .ok s :=
  ⟨rfl, claim_C9 cfgW rfl⟩
